import Mathlib

/-!
Verification development for the immo_bot orchestration core.

The definitions below are a shallow embedding of the Go sources:
  internal/filter/filter.go        (filter engine and matchers)
  internal/antidetect/antidetect.go (rate limiter)
  internal/config (IsQuietTime, parseTimeString, splitTime)
  internal/scheduler (poll, processProfile, sendNotifications,
                      sendContacts, sendTestPreviews)
  internal/repository/sqlite (listing and sent-message store operations)

Go strings are Lean Strings. Go float64 fields (rooms) are Rat. Go int/int64
fields are Int. Machine time is Int seconds. External collaborators
(Source, Store failures excluded, Notifier, Composer, Enhancer, Submitter)
and the Telegram-mutated contact mode are oracles packed in an Env record;
mode reads consume successive values of a read stream, mirroring the two
callback call sites in Scheduler.poll.
-/

/-! ### String helpers (Go strings package, char-list based so the kernel
can evaluate them) -/

/-- Go strings.ToLower (simple per-char case mapping). -/
def lowerString (s : String) : String := String.mk (s.data.map Char.toLower)

/-- Char-list prefix test: isPrefixChars p s is true when p is a prefix of s. -/
def isPrefixChars : List Char → List Char → Bool
  | [], _ => true
  | _ :: _, [] => false
  | p :: ps, s :: ss => p == s && isPrefixChars ps ss

/-- Char-list substring test: needle occurs somewhere in the haystack. -/
def containsChars (needle : List Char) : List Char → Bool
  | [] => isPrefixChars needle []
  | s :: ss => isPrefixChars needle (s :: ss) || containsChars needle ss

/-- Go strings.HasPrefix s p. -/
def hasPrefixStr (s p : String) : Bool := isPrefixChars p.data s.data

/-- Go strings.Contains s sub. -/
def strContains (s sub : String) : Bool := containsChars sub.data s.data

/-- Go strings.EqualFold (modelled as equality after simple lowering). -/
def equalFold (a b : String) : Bool := lowerString a == lowerString b

/-! ### Domain model (internal/domain/entities.go) -/

/-- domain.SearchProfile (criteria fields used by the core). -/
structure SearchProfile where
  ID : Int := 0
  Name : String := ""
  City : String := ""
  Districts : List String := []
  PostalCodes : List String := []
  MinPrice : Int := 0
  MaxPrice : Int := 0
  MinRooms : Rat := 0
  MaxRooms : Rat := 0
  MinArea : Int := 0
  MaxArea : Int := 0
  HasBalcony : Option Bool := none
  HasEBK : Option Bool := none
  HasElevator : Option Bool := none
  PetsAllowed : Option Bool := none
  MinBuildYear : Int := 0
  MaxBuildYear : Int := 0
  ExcludeKeywords : List String := []
  Active : Bool := true
deriving Repr, DecidableEq

/-- domain.Listing (fields used by the core). -/
structure Listing where
  ID : Int := 0
  IS24ID : String := ""
  Title : String := ""
  City : String := ""
  District : String := ""
  PostalCode : String := ""
  Price : Int := 0
  Rooms : Rat := 0
  Area : Int := 0
  HasBalcony : Bool := false
  HasEBK : Bool := false
  HasElevator : Bool := false
  PetsAllowed : Option Bool := none
  BuildYear : Int := 0
  Description : String := ""
  SearchProfileID : Int := 0
  Contacted : Bool := false
  Notified : Bool := false
deriving Repr, DecidableEq

/-- domain.SentMessage. -/
structure SentMessage where
  ID : Int := 0
  ListingID : Int := 0
  IS24ID : String := ""
  Message : String := ""
  Status : String := ""
  ErrorMsg : String := ""
deriving Repr, DecidableEq

/-! ### Filter engine (internal/filter/filter.go) -/

/-- filter.FilterResult. -/
structure FilterResult where
  Passed : Bool
  Reasons : List String
deriving Repr, DecidableEq

/-- filter.PriceMatcher. -/
structure PriceMatcher where
  MinPrice : Int
  MaxPrice : Int
deriving Repr, DecidableEq

/-- PriceMatcher.Match: empty string means pass, otherwise the reason. -/
def PriceMatcher.Match (m : PriceMatcher) (l : Listing) : String :=
  if l.Price = 0 then ""
  else if m.MinPrice > 0 ∧ l.Price < m.MinPrice then "price_too_low"
  else if m.MaxPrice > 0 ∧ l.Price > m.MaxPrice then "price_too_high"
  else ""

/-- filter.RoomsMatcher. -/
structure RoomsMatcher where
  MinRooms : Rat
  MaxRooms : Rat
deriving Repr, DecidableEq

/-- RoomsMatcher.Match. -/
def RoomsMatcher.Match (m : RoomsMatcher) (l : Listing) : String :=
  if l.Rooms = 0 then ""
  else if m.MinRooms > 0 ∧ l.Rooms < m.MinRooms then "too_few_rooms"
  else if m.MaxRooms > 0 ∧ l.Rooms > m.MaxRooms then "too_many_rooms"
  else ""

/-- filter.AreaMatcher. -/
structure AreaMatcher where
  MinArea : Int
  MaxArea : Int
deriving Repr, DecidableEq

/-- AreaMatcher.Match. -/
def AreaMatcher.Match (m : AreaMatcher) (l : Listing) : String :=
  if l.Area = 0 then ""
  else if m.MinArea > 0 ∧ l.Area < m.MinArea then "area_too_small"
  else if m.MaxArea > 0 ∧ l.Area > m.MaxArea then "area_too_large"
  else ""

/-- filter.LocationMatcher. -/
structure LocationMatcher where
  City : String
  Districts : List String
  PostalCodes : List String
deriving Repr, DecidableEq

/-- District list scan of LocationMatcher.Match: case-insensitive equality
or substring containment of the profile district in the listing district. -/
def districtFound (districts : List String) (d : String) : Bool :=
  districts.any (fun x => equalFold d x || strContains (lowerString d) (lowerString x))

/-- Postal list scan of LocationMatcher.Match: exact match or prefix match. -/
def postalFound (postalCodes : List String) (c : String) : Bool :=
  postalCodes.any (fun pc => c == pc || hasPrefixStr c pc)

/-- City gate of LocationMatcher.Match. -/
def LocationMatcher.cityRejects (m : LocationMatcher) (l : Listing) : Bool :=
  m.City != "" && l.City != "" && !(equalFold l.City m.City)

/-- District gate of LocationMatcher.Match. -/
def LocationMatcher.districtRejects (m : LocationMatcher) (l : Listing) : Bool :=
  !(m.Districts == []) && l.District != "" && !(districtFound m.Districts l.District)

/-- Postal gate of LocationMatcher.Match. -/
def LocationMatcher.postalRejects (m : LocationMatcher) (l : Listing) : Bool :=
  !(m.PostalCodes == []) && l.PostalCode != "" && !(postalFound m.PostalCodes l.PostalCode)

/-- LocationMatcher.Match: the three checks run in source order with early
return of the first failure. -/
def LocationMatcher.Match (m : LocationMatcher) (l : Listing) : String :=
  if m.cityRejects l then "wrong_city"
  else if m.districtRejects l then "wrong_district"
  else if m.postalRejects l then "wrong_postal_code"
  else ""

/-- filter.AmenitiesMatcher. -/
structure AmenitiesMatcher where
  HasBalcony : Option Bool
  HasEBK : Option Bool
  HasElevator : Option Bool
  PetsAllowed : Option Bool
deriving Repr, DecidableEq

/-- AmenitiesMatcher.Match: a required amenity fails when the listing lacks
it; pets fail only when the listing explicitly states pets are not allowed. -/
def AmenitiesMatcher.Match (m : AmenitiesMatcher) (l : Listing) : String :=
  if m.HasBalcony = some true ∧ l.HasBalcony = false then "no_balcony"
  else if m.HasEBK = some true ∧ l.HasEBK = false then "no_ebk"
  else if m.HasElevator = some true ∧ l.HasElevator = false then "no_elevator"
  else if m.PetsAllowed = some true ∧ l.PetsAllowed = some false then "no_pets"
  else ""

/-- filter.BuildYearMatcher. -/
structure BuildYearMatcher where
  MinYear : Int
  MaxYear : Int
deriving Repr, DecidableEq

/-- BuildYearMatcher.Match. -/
def BuildYearMatcher.Match (m : BuildYearMatcher) (l : Listing) : String :=
  if l.BuildYear = 0 then ""
  else if m.MinYear > 0 ∧ l.BuildYear < m.MinYear then "building_too_old"
  else if m.MaxYear > 0 ∧ l.BuildYear > m.MaxYear then "building_too_new"
  else ""

/-- filter.KeywordExclusionMatcher. -/
structure KeywordExclusionMatcher where
  Keywords : List String
deriving Repr, DecidableEq

/-- KeywordExclusionMatcher.Match: case-insensitive substring search over
title plus description; the reason names the offending keyword. -/
def KeywordExclusionMatcher.Match (m : KeywordExclusionMatcher) (l : Listing) : String :=
  if m.Keywords = [] then ""
  else
    let text := lowerString (l.Title ++ " " ++ l.Description)
    match m.Keywords.find? (fun k => strContains text (lowerString k)) with
    | some keyword => "excluded_keyword:" ++ keyword
    | none => ""

/-- The fixed matcher list built by Engine.Filter, in source order. -/
def Engine.matchers (profile : SearchProfile) : List (Listing → String) :=
  [ (PriceMatcher.mk profile.MinPrice profile.MaxPrice).Match,
    (RoomsMatcher.mk profile.MinRooms profile.MaxRooms).Match,
    (AreaMatcher.mk profile.MinArea profile.MaxArea).Match,
    (LocationMatcher.mk profile.City profile.Districts profile.PostalCodes).Match,
    (AmenitiesMatcher.mk profile.HasBalcony profile.HasEBK profile.HasElevator
       profile.PetsAllowed).Match,
    (BuildYearMatcher.mk profile.MinBuildYear profile.MaxBuildYear).Match,
    (KeywordExclusionMatcher.mk profile.ExcludeKeywords).Match ]

/-- Engine.Filter: run every matcher, collecting each nonempty reason and
clearing Passed on any failure. -/
def Engine.Filter (listing : Listing) (profile : SearchProfile) : FilterResult :=
  (Engine.matchers profile).foldl
    (fun result m =>
      let reason := m listing
      if reason = "" then result
      else { Passed := false, Reasons := result.Reasons ++ [reason] })
    { Passed := true, Reasons := [] }

/-! Sanity instances for the filter (spec scenario: Berlin profile,
price 1600 over a 1500 cap). -/

example :
    Engine.Filter
      { IS24ID := "x", City := "Berlin", Price := 1600, Rooms := 2 }
      { City := "Berlin", MaxPrice := 1500, MinRooms := 2 } =
      { Passed := false, Reasons := ["price_too_high"] } := by decide

/-! ### Filter theorems (claims C3, C4, C5) -/

/-- Closed form of the Engine.Filter fold: Passed conjoins every matcher
verdict, Reasons appends every nonempty verdict in order. -/
theorem Engine.Filter_foldl (l : Listing) :
    ∀ (ms : List (Listing → String)) (acc : FilterResult),
    ms.foldl (fun result m =>
      let reason := m l
      if reason = "" then result
      else { Passed := false, Reasons := result.Reasons ++ [reason] }) acc =
    { Passed := acc.Passed && (ms.map (fun m => m l)).all (fun r => r == ""),
      Reasons := acc.Reasons ++ (ms.map (fun m => m l)).filter (fun r => r != "") } := by
  intro ms
  induction ms with
  | nil => intro acc; simp
  | cons m ms ih =>
    intro acc
    simp only [List.foldl_cons, List.map_cons, List.all_cons, List.filter_cons]
    by_cases h : m l = ""
    · simp [h, ih]
    · simp [h, ih]

/-- C3: Engine.Filter runs all seven matchers unconditionally with no
short-circuit: the matcher list has exactly seven entries, Reasons collects
the (nonempty) verdict of every violated matcher, and Passed is true exactly
when every matcher returns the empty (pass) verdict. -/
theorem C3_all_matchers_no_short_circuit (l : Listing) (p : SearchProfile) :
    (Engine.matchers p).length = 7
    ∧ (Engine.Filter l p).Reasons =
        ((Engine.matchers p).map (fun m => m l)).filter (fun r => r != "")
    ∧ (Engine.Filter l p).Passed =
        ((Engine.matchers p).map (fun m => m l)).all (fun r => r == "") := by
  refine ⟨rfl, ?_, ?_⟩ <;>
    · unfold Engine.Filter
      rw [Engine.Filter_foldl]
      simp

/-- C4: every numeric matcher passes when the listing lacks a value for its
criterion (zero price, rooms, area or build year), and an unknown pets
status never produces the pets rejection, whatever bounds the profile sets. -/
theorem C4_missing_data_passes (p : SearchProfile) (l : Listing) :
    (l.Price = 0 → (PriceMatcher.mk p.MinPrice p.MaxPrice).Match l = "")
    ∧ (l.Rooms = 0 → (RoomsMatcher.mk p.MinRooms p.MaxRooms).Match l = "")
    ∧ (l.Area = 0 → (AreaMatcher.mk p.MinArea p.MaxArea).Match l = "")
    ∧ (l.BuildYear = 0 → (BuildYearMatcher.mk p.MinBuildYear p.MaxBuildYear).Match l = "")
    ∧ (l.PetsAllowed = none →
        (AmenitiesMatcher.mk p.HasBalcony p.HasEBK p.HasElevator p.PetsAllowed).Match l
          ≠ "no_pets") := by
  refine ⟨fun h => ?_, fun h => ?_, fun h => ?_, fun h => ?_, fun h => ?_⟩
  · simp [PriceMatcher.Match, h]
  · simp [RoomsMatcher.Match, h]
  · simp [AreaMatcher.Match, h]
  · simp [BuildYearMatcher.Match, h]
  · simp only [AmenitiesMatcher.Match, h]
    split
    · decide
    · split
      · decide
      · split
        · decide
        · split
          · simp_all
          · decide

/-- Profile used by witness instantiations: every bound set. -/
def pW : SearchProfile :=
  { Name := "w", MinPrice := 100, MaxPrice := 200, MinRooms := 2, MaxRooms := 4,
    MinArea := 10, MaxArea := 50, MinBuildYear := 1900, MaxBuildYear := 2000,
    HasBalcony := some true, PetsAllowed := some true }

/-- Listing used by witness instantiations: every criterion value missing. -/
def lW : Listing := { IS24ID := "w" }

/-- Witness for C4 at a listing with no price, rooms, area, build year or
pets information against a profile that sets all bounds. -/
theorem C4_missing_data_passes_witness :
    (PriceMatcher.mk pW.MinPrice pW.MaxPrice).Match lW = ""
    ∧ (RoomsMatcher.mk pW.MinRooms pW.MaxRooms).Match lW = ""
    ∧ (AreaMatcher.mk pW.MinArea pW.MaxArea).Match lW = ""
    ∧ (BuildYearMatcher.mk pW.MinBuildYear pW.MaxBuildYear).Match lW = ""
    ∧ (AmenitiesMatcher.mk pW.HasBalcony pW.HasEBK pW.HasElevator pW.PetsAllowed).Match lW
        ≠ "no_pets" := by
  have h := C4_missing_data_passes pW lW
  exact ⟨h.1 rfl, h.2.1 rfl, h.2.2.1 rfl, h.2.2.2.1 rfl, h.2.2.2.2 rfl⟩

/-- C5 counterexample: the claim quantifies over every candidate postal code,
but a candidate with an empty (unknown) postal code skips the postal check:
the location matcher reports ok although no profile entry equals or prefixes
the empty code, so the claimed iff fails at this input. -/
theorem C5_counterexample :
    (LocationMatcher.mk "" [] ["10"]).Match { IS24ID := "c5" } = ""
    ∧ postalFound ["10"] "" = false := by decide

/-- C5 amended: for a nonempty profile postal list and a nonempty candidate
postal code, the postal scan accepts exactly when some profile entry equals
the candidate code or prefixes it; and the matcher reports the postal
rejection exactly when the city and district gates pass and the scan fails. -/
theorem C5_postal_prefix_amended (m : LocationMatcher) (l : Listing)
    (h1 : m.PostalCodes ≠ []) (h2 : l.PostalCode ≠ "") :
    (postalFound m.PostalCodes l.PostalCode = true ↔
       ∃ p ∈ m.PostalCodes, l.PostalCode = p ∨ hasPrefixStr l.PostalCode p = true)
    ∧ (m.Match l = "wrong_postal_code" ↔
       (m.cityRejects l = false ∧ m.districtRejects l = false
        ∧ postalFound m.PostalCodes l.PostalCode = false)) := by
  constructor
  · simp [postalFound, List.any_eq_true]
  · have hpc : m.postalRejects l = !(postalFound m.PostalCodes l.PostalCode) := by
      simp only [LocationMatcher.postalRejects]
      cases hpf : postalFound m.PostalCodes l.PostalCode <;>
        simp [h1, h2, hpf, bne_iff_ne]
    cases hc : m.cityRejects l <;> cases hd : m.districtRejects l <;>
      cases hpf : postalFound m.PostalCodes l.PostalCode <;>
        simp [LocationMatcher.Match, hc, hd, hpc, hpf]

/-- Witness for C5 amended at profile entry "10" and candidate code "10115"
(prefix match accepted). -/
theorem C5_postal_prefix_amended_witness :
    (postalFound ["10"] "10115" = true ↔
       ∃ p ∈ ["10"], "10115" = p ∨ hasPrefixStr "10115" p = true)
    ∧ ((LocationMatcher.mk "" [] ["10"]).Match { IS24ID := "w5", PostalCode := "10115" }
          = "wrong_postal_code" ↔
       ((LocationMatcher.mk "" [] ["10"]).cityRejects { IS24ID := "w5", PostalCode := "10115" }
          = false
        ∧ (LocationMatcher.mk "" [] ["10"]).districtRejects
            { IS24ID := "w5", PostalCode := "10115" } = false
        ∧ postalFound ["10"] "10115" = false)) :=
  C5_postal_prefix_amended (LocationMatcher.mk "" [] ["10"])
    { IS24ID := "w5", PostalCode := "10115" } (by decide) (by decide)

/-! ### Config and quiet hours (internal/config) -/

/-- config.splitTime: split a string on the colon character. -/
def splitTimeChars : List Char → String → List String
  | [], current => [current]
  | c :: rest, current =>
      if c = ':' then current :: splitTimeChars rest ""
      else splitTimeChars rest (current.push c)

/-- config.splitTime on a String. -/
def splitTime (s : String) : List String := splitTimeChars s.data ""

/-- Digit accumulation of config.parseTimeString: non-digits are skipped. -/
def parseDigits (part : String) : Nat :=
  part.data.foldl
    (fun n c => if '0' ≤ c ∧ c ≤ '9' then n * 10 + (c.toNat - '0'.toNat) else n) 0

/-- config.parseTimeString: first part is the hour, every later part
overwrites the minute. -/
def parseTimeString (s : String) : Nat × Nat :=
  let folded := (splitTime s).foldl
    (fun (acc : Nat × Nat × Nat) part =>
      let n := parseDigits part
      match acc with
      | (i, hour, min) => if i = 0 then (i + 1, n, min) else (i + 1, hour, n))
    (0, 0, 0)
  (folded.2.1, folded.2.2)

/-- The configuration fields the scheduler core reads. -/
structure Config where
  ContactEnabled : Bool := false
  QuietEnabled : Bool := false
  QuietStart : String := ""
  QuietEnd : String := ""
deriving Repr, DecidableEq

/-- Config.IsQuietTime with the current local time supplied as minutes
since midnight: inside [start, end) counts as quiet, and a window with
start after end wraps past midnight. -/
def Config.IsQuietTime (c : Config) (nowMinutes : Nat) : Bool :=
  if c.QuietEnabled = false then false
  else
    let startParts := parseTimeString c.QuietStart
    let startMinutes := startParts.1 * 60 + startParts.2
    let endParts := parseTimeString c.QuietEnd
    let endMinutes := endParts.1 * 60 + endParts.2
    if startMinutes > endMinutes then
      decide (nowMinutes ≥ startMinutes ∨ nowMinutes < endMinutes)
    else
      decide (nowMinutes ≥ startMinutes ∧ nowMinutes < endMinutes)

/-! ### Store operations (internal/repository/sqlite/repository.go) -/

/-- The listings and sent_messages tables, with the next autoincrement ids. -/
structure DB where
  Listings : List Listing := []
  Messages : List SentMessage := []
  NextListingID : Int := 1
  NextMessageID : Int := 1
deriving Repr, DecidableEq

/-- Repository.ListingExists: dedup is by external identifier. -/
def DB.ListingExists (db : DB) (is24ID : String) : Bool :=
  db.Listings.any (fun l => l.IS24ID == is24ID)

/-- Repository.CreateListing: INSERT OR IGNORE keyed on the external id;
schema defaults contacted = 0 and notified = 0 for the new row. -/
def DB.CreateListing (db : DB) (l : Listing) : DB :=
  if db.ListingExists l.IS24ID then db
  else
    { db with
      Listings := db.Listings ++
        [{ l with ID := db.NextListingID, Contacted := false, Notified := false }],
      NextListingID := db.NextListingID + 1 }

/-- Repository.MarkListingNotified: set notified = 1 for the row id. -/
def DB.MarkListingNotified (db : DB) (id : Int) : DB :=
  let updated := db.Listings.map (fun l => if l.ID == id then { l with Notified := true } else l)
  { db with Listings := updated }

/-- Repository.MarkListingContacted: set contacted = 1 for the row id. -/
def DB.MarkListingContacted (db : DB) (id : Int) : DB :=
  let updated := db.Listings.map (fun l => if l.ID == id then { l with Contacted := true } else l)
  { db with Listings := updated }

/-- Repository.GetUnnotifiedListings: rows with notified = 0. -/
def DB.GetUnnotifiedListings (db : DB) : List Listing :=
  db.Listings.filter (fun l => !l.Notified)

/-- Repository.GetUncontactedListings: rows with contacted = 0 and
notified = 1. -/
def DB.GetUncontactedListings (db : DB) : List Listing :=
  db.Listings.filter (fun l => !l.Contacted && l.Notified)

/-- Repository.CreateSentMessage: append the attempt record and return its
fresh id. -/
def DB.CreateSentMessage (db : DB) (sm : SentMessage) : DB × Int :=
  ({ db with
      Messages := db.Messages ++ [{ sm with ID := db.NextMessageID }],
      NextMessageID := db.NextMessageID + 1 },
   db.NextMessageID)

/-- Repository.UpdateSentMessageStatus: set status and error text on the
record with the given id. -/
def DB.UpdateSentMessageStatus (db : DB) (id : Int) (status errText : String) : DB :=
  let updated := db.Messages.map
    (fun m => if m.ID == id then { m with Status := status, ErrorMsg := errText } else m)
  { db with Messages := updated }

/-! ### Scheduler (internal/scheduler) -/

/-- Observable collaborator calls made during a cycle. -/
inductive Event
  | notifiedNew (is24ID : String)
  | submitCall (is24ID : String) (message : String)
  | contactSent (is24ID : String)
  | contactFailed (is24ID : String) (errText : String)
  | previewSent (is24ID : String) (message : String)
deriving Repr, DecidableEq

/-- Behaviour of the external collaborators during one cycle, plus the
contact-mode read streams: the n-th call of the corresponding Telegram
callback returns the n-th stream value. -/
structure Env where
  activeProfiles : Except String (List SearchProfile)
  searchResult : SearchProfile → Except String (List Listing)
  fetchExpose : String → Except String Listing
  notifyNewOk : Listing → Bool
  generateMsg : Listing → Except String String
  enhanceResult : Option (String → Listing → Except String String)
  submitResult : Listing → String → Option String
  previewNotifyOk : Listing → Bool
  autoContactReads : Nat → Bool
  testModeReads : Nat → Bool

/-- Scheduler-visible state: the store, the emitted collaborator calls, and
how many times each mode callback has been invoked. -/
structure SchedulerState where
  db : DB := {}
  events : List Event := []
  readsAuto : Nat := 0
  readsTest : Nat := 0
deriving Repr, DecidableEq

/-- Source search results for one profile (empty on search failure). -/
def resultsOf (env : Env) (profile : SearchProfile) : List Listing :=
  match env.searchResult profile with
  | .error _ => []
  | .ok listings => listings

/-- The detail record used after the optional expose fetch: on fetch failure
the basic listing is kept, on success the search profile id is preserved. -/
def detailedOf (env : Env) (listing : Listing) : Listing :=
  match env.fetchExpose listing.IS24ID with
  | .error _ => listing
  | .ok d => { d with SearchProfileID := listing.SearchProfileID }

/-- Body of the per-listing loop of Scheduler.processProfile: dedup by
external id, optional detail fetch, re-filter, persist. -/
def discoveryStep (env : Env) (profile : SearchProfile)
    (st : SchedulerState) (listing : Listing) : SchedulerState :=
  if st.db.ListingExists listing.IS24ID then st
  else
    let detailed := detailedOf env listing
    if (Engine.Filter detailed profile).Passed = false then st
    else { st with db := st.db.CreateListing detailed }

/-- Scheduler.processProfile: search, discovery filter, then the per-listing
loop; a search failure skips the profile. -/
def processProfile (env : Env) (st : SchedulerState) (profile : SearchProfile) :
    SchedulerState :=
  match env.searchResult profile with
  | .error _ => st
  | .ok listings =>
      let filtered := listings.filter (fun l => (Engine.Filter l profile).Passed)
      filtered.foldl (discoveryStep env profile) st

/-- Body of the Scheduler.sendNotifications loop: a notifier failure leaves
the listing unnotified; success marks it notified. -/
def notifyStep (env : Env) (st : SchedulerState) (listing : Listing) : SchedulerState :=
  if env.notifyNewOk listing then
    { st with
      db := st.db.MarkListingNotified listing.ID,
      events := st.events ++ [.notifiedNew listing.IS24ID] }
  else st

/-- Scheduler.sendNotifications over the unnotified listings. -/
def sendNotifications (env : Env) (st : SchedulerState) : SchedulerState :=
  (st.db.GetUnnotifiedListings).foldl (notifyStep env) st

/-- Message composition of the contact and preview passes: Generate, then
Enhance with graceful fallback to the base message on enhancer failure. -/
def composeMessage (env : Env) (l : Listing) : Except String String :=
  match env.generateMsg l with
  | .error e => .error e
  | .ok message =>
      match env.enhanceResult with
      | none => .ok message
      | some enh =>
          match enh message l with
          | .error _ => .ok message
          | .ok enhanced => .ok enhanced

/-- Body of the Scheduler.sendContacts loop: record a pending attempt,
submit, and on failure mark the attempt failed with the error text and
notify the operator; on success mark contacted and the attempt sent. -/
def contactStep (env : Env) (st : SchedulerState) (listing : Listing) : SchedulerState :=
  match composeMessage env listing with
  | .error _ => st
  | .ok message =>
      let created := st.db.CreateSentMessage
        { ListingID := listing.ID, IS24ID := listing.IS24ID,
          Message := message, Status := "pending" }
      let st1 : SchedulerState :=
        { st with
          db := created.1,
          events := st.events ++ [.submitCall listing.IS24ID message] }
      match env.submitResult listing message with
      | some errText =>
          { st1 with
            db := st1.db.UpdateSentMessageStatus created.2 "failed" errText,
            events := st1.events ++ [.contactFailed listing.IS24ID errText] }
      | none =>
          { st1 with
            db := (st1.db.MarkListingContacted listing.ID).UpdateSentMessageStatus
                    created.2 "sent" "",
            events := st1.events ++ [.contactSent listing.IS24ID] }

/-- Scheduler.sendContacts: a nil Submitter returns immediately, otherwise
the loop runs over the uncontacted (notified) listings. -/
def sendContacts (env : Env) (hasContacter : Bool) (st : SchedulerState) : SchedulerState :=
  if hasContacter = false then st
  else (st.db.GetUncontactedListings).foldl (contactStep env) st

/-- Body of the Scheduler.sendTestPreviews loop: compose identically, send a
preview notification, and mark contacted so the preview is not repeated; a
preview notification failure leaves the listing unmarked. -/
def previewStep (env : Env) (st : SchedulerState) (listing : Listing) : SchedulerState :=
  match composeMessage env listing with
  | .error _ => st
  | .ok message =>
      if env.previewNotifyOk listing then
        { st with
          db := st.db.MarkListingContacted listing.ID,
          events := st.events ++ [.previewSent listing.IS24ID message] }
      else st

/-- Scheduler.sendTestPreviews over the uncontacted (notified) listings. -/
def sendTestPreviews (env : Env) (st : SchedulerState) : SchedulerState :=
  (st.db.GetUncontactedListings).foldl (previewStep env) st

/-- Action-pass tail of Scheduler.poll: the auto-contact gate, the contact
pass, the test-mode gate and the preview pass. Each gate conjoins
Contact.Enabled with one fresh read of its mode callback; the Go `&&`
short-circuits, so the callback is not read when Contact.Enabled is false. -/
def actionPasses (env : Env) (cfg : Config) (hasContacter : Bool)
    (st2 : SchedulerState) : SchedulerState :=
  let autoGate :=
    if cfg.ContactEnabled then
      (env.autoContactReads st2.readsAuto, { st2 with readsAuto := st2.readsAuto + 1 })
    else (false, st2)
  let st4 := if autoGate.1 then sendContacts env hasContacter autoGate.2 else autoGate.2
  let testGate :=
    if cfg.ContactEnabled then
      (env.testModeReads st4.readsTest, { st4 with readsTest := st4.readsTest + 1 })
    else (false, st4)
  if testGate.1 then sendTestPreviews env testGate.2 else testGate.2

/-- Scheduler.poll: quiet-hours gate, profile load, per-profile discovery,
notification pass, then the two action passes. Returns the final state and
whether the cycle reported success. -/
def poll (env : Env) (cfg : Config) (hasContacter : Bool) (nowMinutes : Nat)
    (st : SchedulerState) : SchedulerState × Bool :=
  if cfg.IsQuietTime nowMinutes then (st, true)
  else
    match env.activeProfiles with
    | .error _ => (st, false)
    | .ok profiles =>
        (actionPasses env cfg hasContacter
          (sendNotifications env (profiles.foldl (processProfile env) st)), true)

/-! ### Rate limiter (internal/antidetect/antidetect.go) -/

/-- antidetect.RateLimiter state over integer seconds. -/
structure RateLimiter where
  maxRequestsPerMinute : Nat
  requestTimes : List Int
  minDelay : Int
  maxDelay : Int
deriving Repr, DecidableEq

/-- RateLimiter.randomDelay with the random draw supplied: minDelay when
maxDelay is not larger, otherwise minDelay plus the draw below the
difference. -/
def RateLimiter.randomDelay (rl : RateLimiter) (rand : Int) : Int :=
  if rl.maxDelay ≤ rl.minDelay then rl.minDelay
  else rl.minDelay + rand % (rl.maxDelay - rl.minDelay)

/-- RateLimiter.Wait at integer time now: trim the rolling 60-second window,
sleep until the oldest entry ages out when at the limit, apply the random
delay, and record the completion time. Returns the completion time and the
new state. (Go indexes requestTimes[0] unguarded; the empty-window case,
reachable only with a limit of zero, is modelled with headD.) -/
def RateLimiter.Wait (rl : RateLimiter) (now rand : Int) : Int × RateLimiter :=
  let cutoff := now - 60
  let filtered := rl.requestTimes.filter (fun t => decide (cutoff < t))
  let afterWindow :=
    if filtered.length ≥ rl.maxRequestsPerMinute then
      let waitUntil := filtered.headD now + 60
      if now < waitUntil then waitUntil else now
    else now
  let wake := afterWindow + rl.randomDelay rand
  (wake, { rl with requestTimes := filtered ++ [wake] })

/-- n Wait calls in immediate succession: each call starts at the completion
time of the previous one; returns the completion time of the last call and
the final state. -/
def issueCalls (rl : RateLimiter) (t : Int) : Nat → Int × RateLimiter
  | 0 => (t, rl)
  | n + 1 =>
      let r := rl.Wait t 0
      issueCalls r.2 r.1 n

/-- A limiter with max 10 per minute, no random delay, and the given
recorded timestamps. -/
def rlAt (ts : List Int) : RateLimiter :=
  { maxRequestsPerMinute := 10, requestTimes := ts, minDelay := 0, maxDelay := 0 }

/-- The fresh limiter of the C9 scenario. -/
def rlTen : RateLimiter := rlAt []

/-- A window full of copies of t0 survives the trim at time t0. -/
theorem rlTen_filter_replicate (t0 : Int) (k : Nat) :
    (List.replicate k t0).filter (fun t => decide (t0 - 60 < t)) = List.replicate k t0 := by
  rw [List.filter_eq_self]
  intro a ha
  have h := List.eq_of_mem_replicate ha
  subst h
  simp only [decide_eq_true_eq]
  omega

/-- Below the limit, a Wait call at time t0 with k earlier calls at t0
completes immediately and records t0. -/
theorem rlTen_wait_replicate (t0 : Int) (k : Nat) (hk : k < 10) :
    RateLimiter.Wait (rlAt (List.replicate k t0)) t0 0 =
      (t0, rlAt (List.replicate (k + 1) t0)) := by
  simp only [RateLimiter.Wait, RateLimiter.randomDelay, rlAt, rlTen_filter_replicate,
    List.length_replicate]
  rw [if_neg (by omega), if_pos (by omega)]
  simp [List.replicate_succ']

/-- Runs of immediate calls below the limit all complete at t0. -/
theorem rlTen_issue_replicate (t0 : Int) :
    ∀ (n k : Nat), n + k ≤ 10 →
    issueCalls (rlAt (List.replicate k t0)) t0 n =
      (t0, rlAt (List.replicate (k + n) t0)) := by
  intro n
  induction n with
  | zero => intro k _; simp [issueCalls]
  | succ n ih =>
    intro k hk
    rw [issueCalls, rlTen_wait_replicate t0 k (by omega)]
    have h2 : k + (n + 1) = (k + 1) + n := by omega
    rw [h2]
    exact ih (k + 1) (by omega)

/-- Concatenating immediate call runs: m + n calls are m calls followed by
n calls from the resulting time and state. -/
theorem issueCalls_add (m n : Nat) :
    ∀ (rl : RateLimiter) (t : Int),
    issueCalls rl t (m + n) =
      issueCalls (issueCalls rl t m).2 (issueCalls rl t m).1 n := by
  induction m with
  | zero => intro rl t; rw [Nat.zero_add]; rfl
  | succ m ih =>
    intro rl t
    have h : m + 1 + n = (m + n) + 1 := by omega
    rw [h, issueCalls, issueCalls]
    exact ih (rl.Wait t 0).2 (rl.Wait t 0).1

/-- At the limit, a Wait call at time t0 with ten recorded calls at t0
completes exactly at t0 + 60. -/
theorem rlTen_wait_full (t0 : Int) :
    RateLimiter.Wait (rlAt (List.replicate 10 t0)) t0 0 =
      (t0 + 60, rlAt (List.replicate 10 t0 ++ [t0 + 60])) := by
  simp only [RateLimiter.Wait, RateLimiter.randomDelay, rlAt, rlTen_filter_replicate,
    List.length_replicate, ge_iff_le, le_refl, if_true, List.headD]
  rw [show List.replicate 10 t0 = t0 :: List.replicate 9 t0 from rfl]
  simp only [List.headD_cons]
  rw [if_pos (by omega : t0 < t0 + 60)]
  norm_num

/-- C9: with max 10 per 60-second window and zero minimum delay, the first
call records t0, ten immediate calls all complete at t0 without blocking,
and the eleventh immediate call completes exactly at t0 + 60 — it blocks
until 60 seconds after the first call's recorded timestamp, precisely when
the oldest in-window entry ages out. -/
theorem C9_window_blocks_eleventh (t0 : Int) :
    (issueCalls rlTen t0 1).2.requestTimes = [t0]
    ∧ (issueCalls rlTen t0 10).1 = t0
    ∧ (issueCalls rlTen t0 11).1 = t0 + 60 := by
  have hbase : rlTen = rlAt (List.replicate 0 t0) := rfl
  have h1 := rlTen_issue_replicate t0 1 0 (by omega)
  have h10 := rlTen_issue_replicate t0 10 0 (by omega)
  refine ⟨?_, ?_, ?_⟩
  · rw [hbase, h1]; rfl
  · rw [hbase, h10]
  · rw [show (11 : Nat) = 10 + 1 from rfl, issueCalls_add 10 1, hbase, h10]
    show (issueCalls (RateLimiter.Wait (rlAt (List.replicate (0 + 10) t0)) t0 0).2
        (RateLimiter.Wait (rlAt (List.replicate (0 + 10) t0)) t0 0).1 0).1 = t0 + 60
    rw [show (0 + 10 : Nat) = 10 from rfl, rlTen_wait_full t0]
    rfl

/-! ### Quiet hours (claim C6) and shared concrete environments -/

/-- Benign collaborator environment used by witness instantiations. -/
def envW : Env where
  activeProfiles := .ok []
  searchResult := fun _ => .ok []
  fetchExpose := fun _ => .error "fetch failed"
  notifyNewOk := fun _ => true
  generateMsg := fun _ => .ok "msg"
  enhanceResult := none
  submitResult := fun _ _ => none
  previewNotifyOk := fun _ => true
  autoContactReads := fun _ => false
  testModeReads := fun _ => false

/-- The spec's quiet-hours window: 22:00 to 07:00, wrapping past midnight. -/
def quietCfg : Config :=
  { ContactEnabled := false, QuietEnabled := true,
    QuietStart := "22:00", QuietEnd := "07:00" }

/-- C6: whenever the current local time is inside the configured quiet
window the whole poll cycle is skipped, performs no work and reports
success; with the 22:00-07:00 wrapped window, 23:30 is quiet and 08:00 is
not. -/
theorem C6_quiet_hours_skip (env : Env) (cfg : Config) (hasContacter : Bool)
    (nowMinutes : Nat) (st : SchedulerState)
    (h : cfg.IsQuietTime nowMinutes = true) :
    poll env cfg hasContacter nowMinutes st = (st, true)
    ∧ quietCfg.IsQuietTime (23 * 60 + 30) = true
    ∧ quietCfg.IsQuietTime (8 * 60) = false := by
  refine ⟨?_, by decide, by decide⟩
  simp [poll, h]

/-- Witness for C6: a 23:30 cycle against the 22:00-07:00 window is skipped
with success. -/
theorem C6_quiet_hours_skip_witness :
    poll envW quietCfg false (23 * 60 + 30) {} = ({}, true) :=
  (C6_quiet_hours_skip envW quietCfg false (23 * 60 + 30) {} (by decide)).1

/-! ### Discovery pass (claim C2) -/

/-- The discovery fold never persists a candidate id when every incoming
listing carrying that id fails the post-detail filter (and detail records
keep the external id). -/
theorem discovery_foldl_not_exists (env : Env) (profile : SearchProfile) (i : String) :
    ∀ (ls : List Listing) (st : SchedulerState),
      st.db.ListingExists i = false →
      (∀ l ∈ ls, (detailedOf env l).IS24ID = l.IS24ID) →
      (∀ l ∈ ls, l.IS24ID = i → (Engine.Filter (detailedOf env l) profile).Passed = false) →
      ((ls.foldl (discoveryStep env profile) st).db.ListingExists i) = false := by
  intro ls
  induction ls with
  | nil => intro st h _ _; simpa using h
  | cons l ls ih =>
    intro st h hfetch hall
    simp only [List.foldl_cons]
    apply ih
    · unfold discoveryStep
      split
      · exact h
      · dsimp only
        split
        · exact h
        · rename_i hex hpass
          unfold DB.CreateListing
          split
          · exact h
          · have hid : (detailedOf env l).IS24ID ≠ i := by
              intro heq
              have hli : l.IS24ID = i := by
                rw [← hfetch l (List.mem_cons_self l ls)]; exact heq
              exact hpass (hall l (List.mem_cons_self l ls) hli)
            simp only [DB.ListingExists, List.any_append, List.any_cons, List.any_nil,
              Bool.or_false, Bool.or_eq_false_iff] at h ⊢
            refine ⟨h, ?_⟩
            simpa using hid
    · intro x hx; exact hfetch x (List.mem_cons_of_mem l hx)
    · intro x hx; exact hall x (List.mem_cons_of_mem l hx)

/-- C2: a candidate that passes the discovery filter but fails the re-run of
the filter on the (possibly enriched) detail record is dropped within the
cycle: CreateListing is never reached for it and no record with its
external id is persisted. -/
theorem C2_late_rejection_never_persisted (env : Env) (profile : SearchProfile)
    (st : SchedulerState) (i : String)
    (hnot : st.db.ListingExists i = false)
    (hfetch : ∀ l ∈ resultsOf env profile, (detailedOf env l).IS24ID = l.IS24ID)
    (hall : ∀ l ∈ resultsOf env profile,
        l.IS24ID = i → (Engine.Filter l profile).Passed = true →
        (Engine.Filter (detailedOf env l) profile).Passed = false) :
    (processProfile env st profile).db.ListingExists i = false := by
  unfold processProfile
  cases hsr : env.searchResult profile with
  | error e => exact hnot
  | ok ls =>
    have hres : resultsOf env profile = ls := by simp [resultsOf, hsr]
    apply discovery_foldl_not_exists env profile i _ _ hnot
    · intro l hl
      exact hfetch l (by rw [hres]; exact (List.mem_filter.mp hl).1)
    · intro l hl hid
      have hmem := List.mem_filter.mp hl
      exact hall l (by rw [hres]; exact hmem.1) hid hmem.2

/-- Profile of the C2 witness: price cap 1500. -/
def pC2 : SearchProfile := { Name := "c2", MaxPrice := 1500 }

/-- Environment of the C2 witness: the search yields a candidate with no
price (passes discovery) whose detail record reveals price 1600 (fails the
re-run). -/
def envC2 : Env :=
  { envW with
    searchResult := fun _ => .ok [{ IS24ID := "z" }]
    fetchExpose := fun _ => .ok { IS24ID := "z", Price := 1600 } }

/-- Witness for C2: the late-rejected candidate is never persisted. -/
theorem C2_late_rejection_never_persisted_witness :
    (processProfile envC2 {} pC2).db.ListingExists "z" = false :=
  C2_late_rejection_never_persisted envC2 pC2 {} "z" (by decide) (by decide) (by decide)

/-! ### Mode reads (claim C1) -/

/-- Generic fold preservation of the two mode-read counters. -/
theorem counters_foldl {α : Type} (f : SchedulerState → α → SchedulerState)
    (hpres : ∀ st a, (f st a).readsAuto = st.readsAuto ∧ (f st a).readsTest = st.readsTest) :
    ∀ (xs : List α) (st : SchedulerState),
      (xs.foldl f st).readsAuto = st.readsAuto ∧ (xs.foldl f st).readsTest = st.readsTest := by
  intro xs
  induction xs with
  | nil => intro st; exact ⟨rfl, rfl⟩
  | cons x xs ih =>
    intro st
    simp only [List.foldl_cons]
    refine ⟨?_, ?_⟩
    · rw [(ih (f st x)).1, (hpres st x).1]
    · rw [(ih (f st x)).2, (hpres st x).2]

/-- The discovery loop body never touches the mode-read counters. -/
theorem discoveryStep_counters (env : Env) (profile : SearchProfile)
    (st : SchedulerState) (l : Listing) :
    (discoveryStep env profile st l).readsAuto = st.readsAuto ∧
      (discoveryStep env profile st l).readsTest = st.readsTest := by
  unfold discoveryStep
  split
  · exact ⟨rfl, rfl⟩
  · dsimp only
    split
    · exact ⟨rfl, rfl⟩
    · exact ⟨rfl, rfl⟩

/-- processProfile never touches the mode-read counters. -/
theorem processProfile_counters (env : Env) (st : SchedulerState) (profile : SearchProfile) :
    (processProfile env st profile).readsAuto = st.readsAuto ∧
      (processProfile env st profile).readsTest = st.readsTest := by
  unfold processProfile
  split
  · exact ⟨rfl, rfl⟩
  · exact counters_foldl _ (discoveryStep_counters env profile) _ st

/-- The notification loop body never touches the mode-read counters. -/
theorem notifyStep_counters (env : Env) (st : SchedulerState) (l : Listing) :
    (notifyStep env st l).readsAuto = st.readsAuto ∧
      (notifyStep env st l).readsTest = st.readsTest := by
  unfold notifyStep
  split
  · exact ⟨rfl, rfl⟩
  · exact ⟨rfl, rfl⟩

/-- sendNotifications never touches the mode-read counters. -/
theorem sendNotifications_counters (env : Env) (st : SchedulerState) :
    (sendNotifications env st).readsAuto = st.readsAuto ∧
      (sendNotifications env st).readsTest = st.readsTest := by
  unfold sendNotifications
  exact counters_foldl _ (notifyStep_counters env) _ st

/-- The contact loop body never touches the mode-read counters. -/
theorem contactStep_counters (env : Env) (st : SchedulerState) (l : Listing) :
    (contactStep env st l).readsAuto = st.readsAuto ∧
      (contactStep env st l).readsTest = st.readsTest := by
  unfold contactStep
  split
  · exact ⟨rfl, rfl⟩
  · dsimp only
    split
    · exact ⟨rfl, rfl⟩
    · exact ⟨rfl, rfl⟩

/-- sendContacts never touches the mode-read counters. -/
theorem sendContacts_counters (env : Env) (hasContacter : Bool) (st : SchedulerState) :
    (sendContacts env hasContacter st).readsAuto = st.readsAuto ∧
      (sendContacts env hasContacter st).readsTest = st.readsTest := by
  unfold sendContacts
  split
  · exact ⟨rfl, rfl⟩
  · exact counters_foldl _ (contactStep_counters env) _ st

/-- The preview loop body never touches the mode-read counters. -/
theorem previewStep_counters (env : Env) (st : SchedulerState) (l : Listing) :
    (previewStep env st l).readsAuto = st.readsAuto ∧
      (previewStep env st l).readsTest = st.readsTest := by
  unfold previewStep
  split
  · exact ⟨rfl, rfl⟩
  · split
    · exact ⟨rfl, rfl⟩
    · exact ⟨rfl, rfl⟩

/-- sendTestPreviews never touches the mode-read counters. -/
theorem sendTestPreviews_counters (env : Env) (st : SchedulerState) :
    (sendTestPreviews env st).readsAuto = st.readsAuto ∧
      (sendTestPreviews env st).readsTest = st.readsTest := by
  unfold sendTestPreviews
  exact counters_foldl _ (previewStep_counters env) _ st

/-- The action passes advance each read counter by at most one: the mode
callbacks are consulted at most once per pass, never per candidate. -/
theorem actionPasses_counters (env : Env) (cfg : Config) (hc : Bool) (st2 : SchedulerState) :
    (actionPasses env cfg hc st2).readsAuto ≤ st2.readsAuto + 1
    ∧ (actionPasses env cfg hc st2).readsTest ≤ st2.readsTest + 1 := by
  have hifp : ∀ (b : Bool) (s : SchedulerState),
      ((if b = true then sendTestPreviews env s else s).readsAuto = s.readsAuto
        ∧ (if b = true then sendTestPreviews env s else s).readsTest = s.readsTest) := by
    intro b s
    cases b
    · exact ⟨rfl, rfl⟩
    · simpa using sendTestPreviews_counters env s
  have hifc : ∀ (b : Bool) (s : SchedulerState),
      ((if b = true then sendContacts env hc s else s).readsAuto = s.readsAuto
        ∧ (if b = true then sendContacts env hc s else s).readsTest = s.readsTest) := by
    intro b s
    cases b
    · exact ⟨rfl, rfl⟩
    · simpa using sendContacts_counters env hc s
  unfold actionPasses
  cases hce : cfg.ContactEnabled
  · simp only [hce, Bool.false_eq_true, if_false]
    constructor <;> omega
  · simp only [hce, if_true]
    rw [(hifp _ _).1, (hifp _ _).2]
    rw [(hifc _ _).1, (hifc _ _).2]
    constructor <;> simp

/-- Updating only the read streams leaves every pass unchanged: the passes
never consult the mode callbacks. -/
theorem passes_read_agnostic (env : Env) (f g : Nat → Bool) :
    processProfile { env with autoContactReads := f, testModeReads := g } = processProfile env
    ∧ sendNotifications { env with autoContactReads := f, testModeReads := g } =
        sendNotifications env
    ∧ (∀ hc, sendContacts { env with autoContactReads := f, testModeReads := g } hc =
        sendContacts env hc)
    ∧ sendTestPreviews { env with autoContactReads := f, testModeReads := g } =
        sendTestPreviews env := by
  exact ⟨rfl, rfl, fun hc => rfl, rfl⟩

/-- The action passes depend on the read streams only through the single
read each gate performs. -/
theorem actionPasses_read_invariant (env : Env) (f g : Nat → Bool) (cfg : Config)
    (hc : Bool) (st2 : SchedulerState)
    (hf : f st2.readsAuto = env.autoContactReads st2.readsAuto)
    (hg : g st2.readsTest = env.testModeReads st2.readsTest) :
    actionPasses { env with autoContactReads := f, testModeReads := g } cfg hc st2 =
      actionPasses env cfg hc st2 := by
  have hsc : sendContacts { env with autoContactReads := f, testModeReads := g } hc =
      sendContacts env hc := rfl
  have hsp : sendTestPreviews { env with autoContactReads := f, testModeReads := g } =
      sendTestPreviews env := rfl
  unfold actionPasses
  cases hce : cfg.ContactEnabled
  · simp [hce]
  · simp only [hce, if_true]
    rw [hsc, hsp, hf]
    have h4 : (if env.autoContactReads st2.readsAuto = true
        then sendContacts env hc { st2 with readsAuto := st2.readsAuto + 1 }
        else { st2 with readsAuto := st2.readsAuto + 1 }).readsTest = st2.readsTest := by
      cases hb : env.autoContactReads st2.readsAuto
      · simp [hb]
      · simpa [hb] using (sendContacts_counters env hc { st2 with readsAuto := st2.readsAuto + 1 }).2
    rw [h4, hg]

/-- C1 amended: the action-mode callbacks are read at most once per action
pass of a poll cycle — not once per candidate — and the action passes
depend on the read streams only through the single value each gate reads
before iterating candidates: the value is effectively cached for every
candidate of that pass, so a mode change after the pass gate has been read
cannot affect the remaining candidates of that pass. -/
theorem C1_mode_read_once_per_pass (env : Env) (f g : Nat → Bool) (cfg : Config)
    (hc : Bool) (nowM : Nat) (st2 st : SchedulerState)
    (hf : f st2.readsAuto = env.autoContactReads st2.readsAuto)
    (hg : g st2.readsTest = env.testModeReads st2.readsTest) :
    actionPasses { env with autoContactReads := f, testModeReads := g } cfg hc st2 =
      actionPasses env cfg hc st2
    ∧ (poll env cfg hc nowM st).1.readsAuto ≤ st.readsAuto + 1
    ∧ (poll env cfg hc nowM st).1.readsTest ≤ st.readsTest + 1 := by
  refine ⟨actionPasses_read_invariant env f g cfg hc st2 hf hg, ?_, ?_⟩
  · unfold poll
    split
    · exact Nat.le_succ _
    · cases henv : env.activeProfiles with
      | error e => exact Nat.le_succ _
      | ok profiles =>
        have ha := (actionPasses_counters env cfg hc
          (sendNotifications env (profiles.foldl (processProfile env) st))).1
        have h1 := (counters_foldl (processProfile env) (processProfile_counters env)
          profiles st).1
        have h2 := (sendNotifications_counters env
          (profiles.foldl (processProfile env) st)).1
        show (actionPasses env cfg hc
          (sendNotifications env (profiles.foldl (processProfile env) st))).readsAuto ≤
            st.readsAuto + 1
        omega
  · unfold poll
    split
    · exact Nat.le_succ _
    · cases henv : env.activeProfiles with
      | error e => exact Nat.le_succ _
      | ok profiles =>
        have ha := (actionPasses_counters env cfg hc
          (sendNotifications env (profiles.foldl (processProfile env) st))).2
        have h1 := (counters_foldl (processProfile env) (processProfile_counters env)
          profiles st).2
        have h2 := (sendNotifications_counters env
          (profiles.foldl (processProfile env) st)).2
        show (actionPasses env cfg hc
          (sendNotifications env (profiles.foldl (processProfile env) st))).readsTest ≤
            st.readsTest + 1
        omega

/-- Config with the static contact flag on and no quiet hours. -/
def cfgOn : Config := { ContactEnabled := true }

/-- First notified, uncontacted candidate of the C1 scenario. -/
def lsA : Listing := { ID := 1, IS24ID := "a", Notified := true }

/-- Second notified, uncontacted candidate of the C1 scenario. -/
def lsB : Listing := { ID := 2, IS24ID := "b", Notified := true }

/-- Store holding the two candidates awaiting the contact pass. -/
def stAB : SchedulerState := { db := { Listings := [lsA, lsB], NextListingID := 3 } }

/-- Environment whose auto-contact mode reads On once and Off on every
later read: the mode turns Off after the first candidate is processed. -/
def envFlip : Env := { envW with autoContactReads := fun n => n == 0 }

/-- C1 counterexample: the claim says the mode is read once per candidate,
so with the mode turning Off after the first candidate the second candidate
would be gated by the new Off value and left uncontacted. The code reads
the mode exactly once for the whole pass (final read counter 1, not 2) and
contacts both candidates although every read after the first returns Off. -/
theorem C1_counterexample :
    envFlip.autoContactReads 0 = true
    ∧ envFlip.autoContactReads 1 = false
    ∧ ((poll envFlip cfgOn true 0 stAB).1.db.Listings.map Listing.Contacted) = [true, true]
    ∧ (poll envFlip cfgOn true 0 stAB).1.readsAuto = 1 := by decide

/-- Witness for C1 amended at the benign environment and constant-false
streams. -/
theorem C1_mode_read_once_per_pass_witness :
    actionPasses
        { envW with autoContactReads := fun _ => false, testModeReads := fun _ => false }
        cfgOn true {} = actionPasses envW cfgOn true {}
    ∧ (poll envW cfgOn true 0 {}).1.readsAuto ≤ ({} : SchedulerState).readsAuto + 1
    ∧ (poll envW cfgOn true 0 {}).1.readsTest ≤ ({} : SchedulerState).readsTest + 1 :=
  C1_mode_read_once_per_pass envW (fun _ => false) (fun _ => false) cfgOn true 0 {} {} rfl rfl

/-! ### Flag monotonicity (claim C8) -/

/-- Per-listing state only moves forward from db to db': every listing row
survives (matched by row id) with its notified and contacted flags either
unchanged or newly set, never cleared. -/
def flagsMono (db db' : DB) : Prop :=
  ∀ l ∈ db.Listings, ∃ l' ∈ db'.Listings,
    l'.ID = l.ID ∧ l'.IS24ID = l.IS24ID
    ∧ (l.Notified = true → l'.Notified = true)
    ∧ (l.Contacted = true → l'.Contacted = true)

/-- flagsMono is reflexive. -/
theorem flagsMono_refl (db : DB) : flagsMono db db := by
  intro l hl
  exact ⟨l, hl, rfl, rfl, fun h => h, fun h => h⟩

/-- flagsMono is transitive. -/
theorem flagsMono_trans {a b c : DB} (h1 : flagsMono a b) (h2 : flagsMono b c) :
    flagsMono a c := by
  intro l hl
  obtain ⟨l1, hl1, hid1, his1, hn1, hc1⟩ := h1 l hl
  obtain ⟨l2, hl2, hid2, his2, hn2, hc2⟩ := h2 l1 hl1
  exact ⟨l2, hl2, hid2.trans hid1, his2.trans his1,
    fun h => hn2 (hn1 h), fun h => hc2 (hc1 h)⟩

/-- MarkListingNotified only sets the notified flag. -/
theorem markNotified_flagsMono (db : DB) (id : Int) :
    flagsMono db (db.MarkListingNotified id) := by
  intro l hl
  refine ⟨if l.ID == id then { l with Notified := true } else l,
    List.mem_map_of_mem _ hl, ?_, ?_, ?_, ?_⟩
  · split <;> rfl
  · split <;> rfl
  · split
    · exact fun _ => rfl
    · exact fun h => h
  · split <;> exact fun h => h

/-- MarkListingContacted only sets the contacted flag. -/
theorem markContacted_flagsMono (db : DB) (id : Int) :
    flagsMono db (db.MarkListingContacted id) := by
  intro l hl
  refine ⟨if l.ID == id then { l with Contacted := true } else l,
    List.mem_map_of_mem _ hl, ?_, ?_, ?_, ?_⟩
  · split <;> rfl
  · split <;> rfl
  · split <;> exact fun h => h
  · split
    · exact fun _ => rfl
    · exact fun h => h

/-- CreateListing appends a new row and leaves the old rows intact. -/
theorem createListing_flagsMono (db : DB) (nl : Listing) :
    flagsMono db (db.CreateListing nl) := by
  unfold DB.CreateListing
  split
  · exact flagsMono_refl db
  · intro l hl
    exact ⟨l, List.mem_append_left _ hl, rfl, rfl, fun h => h, fun h => h⟩

/-- Folding a flag-monotone step is flag-monotone. -/
theorem foldl_flagsMono {α : Type} (f : SchedulerState → α → SchedulerState)
    (hstep : ∀ st a, flagsMono st.db (f st a).db) :
    ∀ (xs : List α) (st : SchedulerState), flagsMono st.db ((xs.foldl f st).db) := by
  intro xs
  induction xs with
  | nil => intro st; exact flagsMono_refl _
  | cons x xs ih =>
    intro st
    exact flagsMono_trans (hstep st x) (ih (f st x))

/-- The discovery loop body is flag-monotone. -/
theorem discoveryStep_flagsMono (env : Env) (profile : SearchProfile)
    (st : SchedulerState) (l : Listing) :
    flagsMono st.db (discoveryStep env profile st l).db := by
  unfold discoveryStep
  split
  · exact flagsMono_refl _
  · dsimp only
    split
    · exact flagsMono_refl _
    · exact createListing_flagsMono st.db _

/-- processProfile is flag-monotone. -/
theorem processProfile_flagsMono (env : Env) (st : SchedulerState)
    (profile : SearchProfile) :
    flagsMono st.db (processProfile env st profile).db := by
  unfold processProfile
  split
  · exact flagsMono_refl _
  · exact foldl_flagsMono _ (discoveryStep_flagsMono env profile) _ st

/-- The notification loop body is flag-monotone. -/
theorem notifyStep_flagsMono (env : Env) (st : SchedulerState) (l : Listing) :
    flagsMono st.db (notifyStep env st l).db := by
  unfold notifyStep
  split
  · exact markNotified_flagsMono st.db l.ID
  · exact flagsMono_refl _

/-- sendNotifications is flag-monotone. -/
theorem sendNotifications_flagsMono (env : Env) (st : SchedulerState) :
    flagsMono st.db (sendNotifications env st).db := by
  unfold sendNotifications
  exact foldl_flagsMono _ (notifyStep_flagsMono env) _ st

/-- The contact loop body is flag-monotone. -/
theorem contactStep_flagsMono (env : Env) (st : SchedulerState) (l : Listing) :
    flagsMono st.db (contactStep env st l).db := by
  unfold contactStep
  split
  · exact flagsMono_refl _
  · dsimp only
    split
    · intro x hx
      exact ⟨x, hx, rfl, rfl, fun h => h, fun h => h⟩
    · exact flagsMono_trans (markContacted_flagsMono st.db l.ID)
        (by intro x hx; exact ⟨x, hx, rfl, rfl, fun h => h, fun h => h⟩)

/-- sendContacts is flag-monotone. -/
theorem sendContacts_flagsMono (env : Env) (hc : Bool) (st : SchedulerState) :
    flagsMono st.db (sendContacts env hc st).db := by
  unfold sendContacts
  split
  · exact flagsMono_refl _
  · exact foldl_flagsMono _ (contactStep_flagsMono env) _ st

/-- The preview loop body is flag-monotone. -/
theorem previewStep_flagsMono (env : Env) (st : SchedulerState) (l : Listing) :
    flagsMono st.db (previewStep env st l).db := by
  unfold previewStep
  split
  · exact flagsMono_refl _
  · split
    · exact markContacted_flagsMono st.db _
    · exact flagsMono_refl _

/-- sendTestPreviews is flag-monotone. -/
theorem sendTestPreviews_flagsMono (env : Env) (st : SchedulerState) :
    flagsMono st.db (sendTestPreviews env st).db := by
  unfold sendTestPreviews
  exact foldl_flagsMono _ (previewStep_flagsMono env) _ st

/-- The action passes are flag-monotone. -/
theorem actionPasses_flagsMono (env : Env) (cfg : Config) (hc : Bool)
    (st2 : SchedulerState) :
    flagsMono st2.db (actionPasses env cfg hc st2).db := by
  have hif1 : ∀ (b : Bool) (s : SchedulerState),
      flagsMono s.db ((if b = true then sendContacts env hc s else s).db) := by
    intro b s
    cases b
    · exact flagsMono_refl _
    · simpa using sendContacts_flagsMono env hc s
  have hif2 : ∀ (b : Bool) (s : SchedulerState),
      flagsMono s.db ((if b = true then sendTestPreviews env s else s).db) := by
    intro b s
    cases b
    · exact flagsMono_refl _
    · simpa using sendTestPreviews_flagsMono env s
  unfold actionPasses
  cases hce : cfg.ContactEnabled
  · simp [hce]
    exact flagsMono_refl _
  · simp only [hce, if_true]
    exact
      let st3 : SchedulerState := { st2 with readsAuto := st2.readsAuto + 1 }
      let st4 : SchedulerState :=
        if env.autoContactReads st2.readsAuto = true then sendContacts env hc st3 else st3
      flagsMono_trans (hif1 (env.autoContactReads st2.readsAuto) st3)
        (hif2 (env.testModeReads st4.readsTest) { st4 with readsTest := st4.readsTest + 1 })

/-- poll is flag-monotone. -/
theorem poll_flagsMono (env : Env) (cfg : Config) (hc : Bool) (nowM : Nat)
    (st : SchedulerState) :
    flagsMono st.db (poll env cfg hc nowM st).1.db := by
  unfold poll
  split
  · exact flagsMono_refl _
  · cases henv : env.activeProfiles with
    | error e => exact flagsMono_refl _
    | ok profiles =>
      show flagsMono st.db (actionPasses env cfg hc
        (sendNotifications env (profiles.foldl (processProfile env) st))).db
      exact flagsMono_trans
        (foldl_flagsMono _ (processProfile_flagsMono env) profiles st)
        (flagsMono_trans (sendNotifications_flagsMono env _)
          (actionPasses_flagsMono env cfg hc _))

/-- C8: every core store operation and the whole poll cycle advance the
per-listing flags monotonically along discovered, notified, contacted:
rows survive with their notified and contacted flags unchanged or newly
set, and never cleared. -/
theorem C8_flags_monotone (db : DB) (id mid : Int) (nl : Listing) (sm : SentMessage)
    (status errText : String) (env : Env) (cfg : Config) (hc : Bool) (nowM : Nat)
    (st : SchedulerState) :
    flagsMono db (db.MarkListingNotified id)
    ∧ flagsMono db (db.MarkListingContacted id)
    ∧ flagsMono db (db.CreateListing nl)
    ∧ flagsMono db (db.CreateSentMessage sm).1
    ∧ flagsMono db (db.UpdateSentMessageStatus mid status errText)
    ∧ flagsMono st.db (poll env cfg hc nowM st).1.db := by
  refine ⟨markNotified_flagsMono db id, markContacted_flagsMono db id,
    createListing_flagsMono db nl, ?_, ?_, poll_flagsMono env cfg hc nowM st⟩
  · intro l hl
    exact ⟨l, hl, rfl, rfl, fun h => h, fun h => h⟩
  · intro l hl
    exact ⟨l, hl, rfl, rfl, fun h => h, fun h => h⟩

/-- Witness for C8 at concrete store contents and a concrete cycle. -/
theorem C8_flags_monotone_witness :
    flagsMono stAB.db (stAB.db.MarkListingNotified 1)
    ∧ flagsMono stAB.db (stAB.db.MarkListingContacted 1)
    ∧ flagsMono stAB.db (stAB.db.CreateListing lsA)
    ∧ flagsMono stAB.db (stAB.db.CreateSentMessage {}).1
    ∧ flagsMono stAB.db (stAB.db.UpdateSentMessageStatus 1 "sent" "")
    ∧ flagsMono stAB.db (poll envW cfgOn true 0 stAB).1.db :=
  C8_flags_monotone stAB.db 1 1 lsA {} "sent" "" envW cfgOn true 0 stAB

/-! ### Static contact gates (claim C10) -/

/-- A nil Submitter makes the contact pass a no-op. -/
theorem sendContacts_nil (env : Env) (s : SchedulerState) : sendContacts env false s = s := rfl

/-- A fold whose step leaves events unchanged leaves events unchanged. -/
theorem foldl_events_eq {α : Type} (f : SchedulerState → α → SchedulerState)
    (hstep : ∀ st a, (f st a).events = st.events) :
    ∀ (xs : List α) (st : SchedulerState), (xs.foldl f st).events = st.events := by
  intro xs
  induction xs with
  | nil => intro st; rfl
  | cons x xs ih =>
    intro st
    rw [List.foldl_cons, ih (f st x), hstep st x]

/-- Event reflection through a fold: an event of the result already present
nowhere is traced back to the initial events. -/
theorem foldl_event_reflect {α : Type} (f : SchedulerState → α → SchedulerState) (e : Event)
    (hstep : ∀ st a, e ∈ (f st a).events → e ∈ st.events) :
    ∀ (xs : List α) (st : SchedulerState), e ∈ (xs.foldl f st).events → e ∈ st.events := by
  intro xs
  induction xs with
  | nil => intro st h; exact h
  | cons x xs ih =>
    intro st h
    exact hstep st x (ih (f st x) h)

/-- The discovery loop body emits no events. -/
theorem discoveryStep_events (env : Env) (profile : SearchProfile)
    (st : SchedulerState) (l : Listing) :
    (discoveryStep env profile st l).events = st.events := by
  unfold discoveryStep
  split
  · rfl
  · dsimp only
    split
    · rfl
    · rfl

/-- processProfile emits no events. -/
theorem processProfile_events (env : Env) (st : SchedulerState) (profile : SearchProfile) :
    (processProfile env st profile).events = st.events := by
  unfold processProfile
  split
  · rfl
  · exact foldl_events_eq _ (discoveryStep_events env profile) _ st

/-- The notification loop body emits no submitCall events. -/
theorem notifyStep_no_submit (env : Env) (st : SchedulerState) (l : Listing)
    (i msg : String) (h : Event.submitCall i msg ∈ (notifyStep env st l).events) :
    Event.submitCall i msg ∈ st.events := by
  unfold notifyStep at h
  split at h
  · rcases List.mem_append.mp h with h' | h'
    · exact h'
    · simp at h'
  · exact h

/-- sendNotifications emits no submitCall events. -/
theorem sendNotifications_no_submit (env : Env) (st : SchedulerState)
    (i msg : String) (h : Event.submitCall i msg ∈ (sendNotifications env st).events) :
    Event.submitCall i msg ∈ st.events := by
  unfold sendNotifications at h
  exact foldl_event_reflect _ _ (fun s a => notifyStep_no_submit env s a i msg) _ st h

/-- The preview loop body emits no submitCall events. -/
theorem previewStep_no_submit (env : Env) (st : SchedulerState) (l : Listing)
    (i msg : String) (h : Event.submitCall i msg ∈ (previewStep env st l).events) :
    Event.submitCall i msg ∈ st.events := by
  unfold previewStep at h
  split at h
  · exact h
  · split at h
    · rcases List.mem_append.mp h with h' | h'
      · exact h'
      · simp at h'
    · exact h

/-- sendTestPreviews emits no submitCall events. -/
theorem sendTestPreviews_no_submit (env : Env) (st : SchedulerState)
    (i msg : String) (h : Event.submitCall i msg ∈ (sendTestPreviews env st).events) :
    Event.submitCall i msg ∈ st.events := by
  unfold sendTestPreviews at h
  exact foldl_event_reflect _ _ (fun s a => previewStep_no_submit env s a i msg) _ st h

/-- Contacted-flag reflection: every row of db1 marked contacted descends
from a row of db0 with the same id already marked contacted. -/
def contactedReflect (db0 db1 : DB) : Prop :=
  ∀ e ∈ db1.Listings, e.Contacted = true →
    ∃ e0 ∈ db0.Listings, e0.ID = e.ID ∧ e0.Contacted = true

/-- contactedReflect is reflexive. -/
theorem contactedReflect_refl (db : DB) : contactedReflect db db := by
  intro e he hc
  exact ⟨e, he, rfl, hc⟩

/-- contactedReflect is transitive. -/
theorem contactedReflect_trans {a b c : DB}
    (h1 : contactedReflect a b) (h2 : contactedReflect b c) : contactedReflect a c := by
  intro e he hc
  obtain ⟨e1, he1, hid1, hc1⟩ := h2 e he hc
  obtain ⟨e0, he0, hid0, hc0⟩ := h1 e1 he1 hc1
  exact ⟨e0, he0, hid0.trans hid1, hc0⟩

/-- MarkListingNotified never sets the contacted flag. -/
theorem markNotified_contactedReflect (db : DB) (id : Int) :
    contactedReflect db (db.MarkListingNotified id) := by
  intro e he hc
  unfold DB.MarkListingNotified at he
  obtain ⟨e0, he0, heq⟩ := List.mem_map.mp he
  refine ⟨e0, he0, ?_, ?_⟩
  · rw [← heq]
    split
    · rfl
    · rfl
  · rw [← hc, ← heq]
    split
    · rfl
    · rfl

/-- CreateListing inserts rows with the contacted flag unset. -/
theorem createListing_contactedReflect (db : DB) (nl : Listing) :
    contactedReflect db (db.CreateListing nl) := by
  intro e he hc
  unfold DB.CreateListing at he
  split at he
  · exact ⟨e, he, rfl, hc⟩
  · rcases List.mem_append.mp he with h' | h'
    · exact ⟨e, h', rfl, hc⟩
    · simp only [List.mem_singleton] at h'
      subst h'
      simp at hc

/-- A fold whose step reflects contacted flags reflects contacted flags. -/
theorem foldl_contactedReflect {α : Type} (f : SchedulerState → α → SchedulerState)
    (hstep : ∀ st a, contactedReflect st.db (f st a).db) :
    ∀ (xs : List α) (st : SchedulerState), contactedReflect st.db ((xs.foldl f st).db) := by
  intro xs
  induction xs with
  | nil => intro st; exact contactedReflect_refl _
  | cons x xs ih =>
    intro st
    exact contactedReflect_trans (hstep st x) (ih (f st x))

/-- The discovery loop body reflects contacted flags. -/
theorem discoveryStep_contactedReflect (env : Env) (profile : SearchProfile)
    (st : SchedulerState) (l : Listing) :
    contactedReflect st.db (discoveryStep env profile st l).db := by
  unfold discoveryStep
  split
  · exact contactedReflect_refl _
  · dsimp only
    split
    · exact contactedReflect_refl _
    · exact createListing_contactedReflect st.db _

/-- processProfile reflects contacted flags. -/
theorem processProfile_contactedReflect (env : Env) (st : SchedulerState)
    (profile : SearchProfile) :
    contactedReflect st.db (processProfile env st profile).db := by
  unfold processProfile
  split
  · exact contactedReflect_refl _
  · exact foldl_contactedReflect _ (discoveryStep_contactedReflect env profile) _ st

/-- The notification loop body reflects contacted flags. -/
theorem notifyStep_contactedReflect (env : Env) (st : SchedulerState) (l : Listing) :
    contactedReflect st.db (notifyStep env st l).db := by
  unfold notifyStep
  split
  · exact markNotified_contactedReflect st.db l.ID
  · exact contactedReflect_refl _

/-- sendNotifications reflects contacted flags. -/
theorem sendNotifications_contactedReflect (env : Env) (st : SchedulerState) :
    contactedReflect st.db (sendNotifications env st).db := by
  unfold sendNotifications
  exact foldl_contactedReflect _ (notifyStep_contactedReflect env) _ st

/-- With Contact.Enabled off, both action gates are closed and the action
passes are a no-op. -/
theorem actionPasses_contact_disabled (env : Env) (cfg : Config) (hc : Bool)
    (st2 : SchedulerState) (hce : cfg.ContactEnabled = false) :
    actionPasses env cfg hc st2 = st2 := by
  simp [actionPasses, hce]

/-- With a nil Submitter, the action passes emit no submitCall events. -/
theorem actionPasses_no_submit_nil (env : Env) (cfg : Config) (st2 : SchedulerState)
    (i msg : String)
    (h : Event.submitCall i msg ∈ (actionPasses env cfg false st2).events) :
    Event.submitCall i msg ∈ st2.events := by
  unfold actionPasses at h
  cases hce : cfg.ContactEnabled
  · rw [hce] at h
    simp only [Bool.false_eq_true, if_false] at h
    exact h
  · rw [hce] at h
    simp only [if_true, sendContacts_nil, ite_self] at h
    split at h
    · have h2 := sendTestPreviews_no_submit env _ i msg h
      exact h2
    · exact h

/-- C10 amended: with Contact.Enabled false, a cycle never submits and
never marks any candidate contacted (every contacted row descends from an
already-contacted row); with a nil Submitter, a cycle never submits — but
the preview pass can still mark candidates contacted, which is why the
original claim fails. -/
theorem C10_static_gates (env : Env) (cfg : Config) (hc : Bool) (nowM : Nat)
    (st : SchedulerState) :
    (cfg.ContactEnabled = false →
      (∀ i msg, Event.submitCall i msg ∈ (poll env cfg hc nowM st).1.events →
          Event.submitCall i msg ∈ st.events)
      ∧ contactedReflect st.db (poll env cfg hc nowM st).1.db)
    ∧ (hc = false →
      ∀ i msg, Event.submitCall i msg ∈ (poll env cfg hc nowM st).1.events →
          Event.submitCall i msg ∈ st.events) := by
  constructor
  · intro hce
    constructor
    · intro i msg h
      unfold poll at h
      split at h
      · exact h
      · split at h
        · exact h
        · rw [actionPasses_contact_disabled env cfg hc _ hce] at h
          have h2 := sendNotifications_no_submit env _ i msg h
          rw [foldl_events_eq (processProfile env) (processProfile_events env) _ st] at h2
          exact h2
    · unfold poll
      split
      · exact contactedReflect_refl _
      · split
        · exact contactedReflect_refl _
        · rw [actionPasses_contact_disabled env cfg hc _ hce]
          exact contactedReflect_trans
            (foldl_contactedReflect _ (processProfile_contactedReflect env) _ st)
            (sendNotifications_contactedReflect env _)
  · intro hhc i msg h
    subst hhc
    unfold poll at h
    split at h
    · exact h
    · split at h
      · exact h
      · have h2 := actionPasses_no_submit_nil env cfg _ i msg h
        have h3 := sendNotifications_no_submit env _ i msg h2
        rw [foldl_events_eq (processProfile env) (processProfile_events env) _ st] at h3
        exact h3

/-- Store with one notified, uncontacted candidate for the C10 scenario. -/
def stP : SchedulerState := { db := { Listings := [lsA], NextListingID := 2 } }

/-- Environment with test (preview) mode on and auto-contact off. -/
def envPrev : Env := { envW with testModeReads := fun _ => true }

/-- C10 counterexample: Contact.Enabled is true, no Submitter is configured
(nil contacter), mode reads Preview — yet the candidate ends marked
contacted by the preview pass (and only a preview event is emitted), so
"no Submitter configured implies no candidate is ever marked contacted"
fails on the code. -/
theorem C10_counterexample :
    ((poll envPrev cfgOn false 0 stP).1.db.Listings.map Listing.Contacted) = [true]
    ∧ (poll envPrev cfgOn false 0 stP).1.events = [Event.previewSent "a" "msg"] := by decide

/-- Witness for C10 amended: a disabled-contact, nil-Submitter cycle keeps
every gate closed. -/
theorem C10_static_gates_witness :
    ((∀ i msg, Event.submitCall i msg ∈ (poll envW {} false 0 stAB).1.events →
        Event.submitCall i msg ∈ stAB.events)
     ∧ contactedReflect stAB.db (poll envW {} false 0 stAB).1.db)
    ∧ (∀ i msg, Event.submitCall i msg ∈ (poll envW {} false 0 stAB).1.events →
        Event.submitCall i msg ∈ stAB.events) :=
  ⟨(C10_static_gates envW {} false 0 stAB).1 rfl, (C10_static_gates envW {} false 0 stAB).2 rfl⟩

/-! ### Contact pass failure handling (claim C7) -/

/-- Store well-formedness: distinct listing row ids, and message ids below
the next autoincrement id. -/
def DB.WF (db : DB) : Prop :=
  (db.Listings.map Listing.ID).Nodup ∧ ∀ m ∈ db.Messages, m.ID < db.NextMessageID

/-- Projection facts for the message-table operations. -/
theorem create_nextID (db : DB) (sm : SentMessage) :
    (db.CreateSentMessage sm).1.NextMessageID = db.NextMessageID + 1 := rfl

/-- CreateSentMessage returns the id it assigned. -/
theorem create_retID (db : DB) (sm : SentMessage) :
    (db.CreateSentMessage sm).2 = db.NextMessageID := rfl

/-- UpdateSentMessageStatus keeps the next autoincrement id. -/
theorem update_nextID (db : DB) (id : Int) (s e : String) :
    (db.UpdateSentMessageStatus id s e).NextMessageID = db.NextMessageID := rfl

/-- MarkListingContacted keeps the next autoincrement id. -/
theorem mark_nextID (db : DB) (id : Int) :
    (db.MarkListingContacted id).NextMessageID = db.NextMessageID := rfl

/-- The status update keeps every record id. -/
theorem upd_preserves_id (n : Int) (s e : String) (m : SentMessage) :
    ((if m.ID == n then { m with Status := s, ErrorMsg := e } else m) : SentMessage).ID
      = m.ID := by
  split <;> rfl

/-- The contact loop body either leaves the listings table unchanged or
marks exactly the processed listing's row contacted. -/
theorem contactStep_listings (env : Env) (st : SchedulerState) (x : Listing) :
    (contactStep env st x).db.Listings = st.db.Listings
    ∨ (contactStep env st x).db.Listings =
        st.db.Listings.map
          (fun l => if l.ID == x.ID then { l with Contacted := true } else l) := by
  unfold contactStep
  split
  · exact Or.inl rfl
  · dsimp only
    split
    · exact Or.inl rfl
    · exact Or.inr rfl

/-- A row whose id differs from the processed listing survives the contact
loop body unchanged. -/
theorem contactStep_keeps_entry (env : Env) (st : SchedulerState) (x : Listing)
    (e : Listing) (he : e ∈ st.db.Listings) (hne : e.ID ≠ x.ID) :
    e ∈ (contactStep env st x).db.Listings := by
  rcases contactStep_listings env st x with h | h
  · rw [h]; exact he
  · rw [h]
    have hfix : (fun l => if l.ID == x.ID then { l with Contacted := true } else l) e = e := by
      simp [hne]
    exact hfix ▸ List.mem_map_of_mem _ he

/-- The contact loop body keeps every well-formed message record and keeps
ids below the next autoincrement id. -/
theorem contactStep_msg_preserved (env : Env) (st : SchedulerState) (x : Listing)
    (m : SentMessage) (hm : m ∈ st.db.Messages) (hlt : m.ID < st.db.NextMessageID) :
    m ∈ (contactStep env st x).db.Messages
    ∧ m.ID < (contactStep env st x).db.NextMessageID := by
  have hfix : ∀ s e : String,
      ((fun m' => if m'.ID == st.db.NextMessageID then { m' with Status := s, ErrorMsg := e }
        else m') m) = m := by
    intro s e
    simp only [beq_iff_eq]
    rw [if_neg (by omega)]
  unfold contactStep
  split
  · exact ⟨hm, hlt⟩
  · dsimp only
    split
    · refine ⟨?_, by rw [update_nextID, create_nextID]; omega⟩
      exact hfix "failed" _ ▸ List.mem_map_of_mem _ (List.mem_append_left _ hm)
    · refine ⟨?_, by rw [update_nextID, mark_nextID, create_nextID]; omega⟩
      exact hfix "sent" "" ▸ List.mem_map_of_mem _ (List.mem_append_left _ hm)

/-- The contact loop body preserves message-id well-formedness. -/
theorem contactStep_msgWF (env : Env) (st : SchedulerState) (x : Listing)
    (h : ∀ m ∈ st.db.Messages, m.ID < st.db.NextMessageID) :
    ∀ m ∈ (contactStep env st x).db.Messages,
      m.ID < (contactStep env st x).db.NextMessageID := by
  unfold contactStep
  split
  · exact h
  · dsimp only
    split
    · intro m hm
      obtain ⟨m0, hm0, heq⟩ := List.mem_map.mp hm
      have hid : m.ID = m0.ID := by rw [← heq]; exact upd_preserves_id _ _ _ m0
      rw [update_nextID, create_nextID]
      rcases List.mem_append.mp hm0 with h0 | h0
      · have := h m0 h0
        omega
      · simp only [List.mem_singleton] at h0
        have : m0.ID = st.db.NextMessageID := by rw [h0]
        omega
    · intro m hm
      obtain ⟨m0, hm0, heq⟩ := List.mem_map.mp hm
      have hid : m.ID = m0.ID := by rw [← heq]; exact upd_preserves_id _ _ _ m0
      rw [update_nextID, mark_nextID, create_nextID]
      rcases List.mem_append.mp hm0 with h0 | h0
      · have := h m0 h0
        omega
      · simp only [List.mem_singleton] at h0
        have : m0.ID = st.db.NextMessageID := by rw [h0]
        omega

/-- The contact loop body only appends events. -/
theorem contactStep_events_mono (env : Env) (st : SchedulerState) (x : Listing)
    (e : Event) (he : e ∈ st.events) : e ∈ (contactStep env st x).events := by
  unfold contactStep
  split
  · exact he
  · dsimp only
    split
    · exact List.mem_append_left _ (List.mem_append_left _ he)
    · exact List.mem_append_left _ (List.mem_append_left _ he)

/-- Folding the contact loop keeps rows whose ids avoid the processed
listings. -/
theorem foldl_keeps_entry (env : Env) (e : Listing) :
    ∀ (xs : List Listing) (st : SchedulerState), e ∈ st.db.Listings →
      (∀ x ∈ xs, e.ID ≠ x.ID) →
      e ∈ ((xs.foldl (contactStep env) st).db.Listings) := by
  intro xs
  induction xs with
  | nil => intro st he _; exact he
  | cons x xs ih =>
    intro st he hne
    rw [List.foldl_cons]
    exact ih (contactStep env st x)
      (contactStep_keeps_entry env st x e he (hne x (List.mem_cons_self x xs)))
      (fun y hy => hne y (List.mem_cons_of_mem x hy))

/-- Folding the contact loop keeps well-formed message records. -/
theorem foldl_msg_preserved (env : Env) (m : SentMessage) :
    ∀ (xs : List Listing) (st : SchedulerState),
      m ∈ st.db.Messages → m.ID < st.db.NextMessageID →
      m ∈ ((xs.foldl (contactStep env) st).db.Messages) := by
  intro xs
  induction xs with
  | nil => intro st hm _; exact hm
  | cons x xs ih =>
    intro st hm hlt
    rw [List.foldl_cons]
    have h := contactStep_msg_preserved env st x m hm hlt
    exact ih (contactStep env st x) h.1 h.2

/-- Folding the contact loop preserves message-id well-formedness. -/
theorem foldl_msgWF (env : Env) :
    ∀ (xs : List Listing) (st : SchedulerState),
      (∀ m ∈ st.db.Messages, m.ID < st.db.NextMessageID) →
      ∀ m ∈ ((xs.foldl (contactStep env) st).db.Messages),
        m.ID < ((xs.foldl (contactStep env) st).db.NextMessageID) := by
  intro xs
  induction xs with
  | nil => intro st h; exact h
  | cons x xs ih =>
    intro st h
    rw [List.foldl_cons]
    exact ih (contactStep env st x) (contactStep_msgWF env st x h)

/-- Folding the contact loop only appends events. -/
theorem foldl_contact_events_mono (env : Env) (e : Event) :
    ∀ (xs : List Listing) (st : SchedulerState), e ∈ st.events →
      e ∈ ((xs.foldl (contactStep env) st).events) := by
  intro xs
  induction xs with
  | nil => intro st he; exact he
  | cons x xs ih =>
    intro st he
    rw [List.foldl_cons]
    exact ih (contactStep env st x) (contactStep_events_mono env st x e he)

/-- The attempt record for listing l with the given id, message, status and
error text. -/
def attemptRec (n : Int) (l : Listing) (message status errText : String) : SentMessage :=
  { ID := n, ListingID := l.ID, IS24ID := l.IS24ID, Message := message,
    Status := status, ErrorMsg := errText }

/-- Failing submission: the attempt record is stored with status failed and
the error text, the operator is notified, the listings table is untouched,
and the autoincrement id advances. -/
theorem contactStep_fail (env : Env) (st : SchedulerState) (l : Listing)
    (message errText : String)
    (hmsg : composeMessage env l = .ok message)
    (hsub : env.submitResult l message = some errText) :
    (contactStep env st l).db.Listings = st.db.Listings
    ∧ attemptRec st.db.NextMessageID l message "failed" errText
        ∈ (contactStep env st l).db.Messages
    ∧ Event.contactFailed l.IS24ID errText ∈ (contactStep env st l).events
    ∧ (contactStep env st l).db.NextMessageID = st.db.NextMessageID + 1 := by
  unfold contactStep
  rw [hmsg]
  dsimp only
  rw [hsub]
  refine ⟨rfl, ?_, ?_, rfl⟩
  · have h1 : attemptRec st.db.NextMessageID l message "pending" ""
        ∈ st.db.Messages ++ [attemptRec st.db.NextMessageID l message "pending" ""] :=
      List.mem_append_right _ (List.mem_singleton.mpr rfl)
    have h2 := List.mem_map_of_mem
      (fun m => if m.ID == st.db.NextMessageID
        then { m with Status := "failed", ErrorMsg := errText } else m) h1
    have h3 : ((fun m => if m.ID == st.db.NextMessageID
        then { m with Status := "failed", ErrorMsg := errText } else m)
          (attemptRec st.db.NextMessageID l message "pending" "")) =
        attemptRec st.db.NextMessageID l message "failed" errText := by
      simp [attemptRec]
    exact h3 ▸ h2
  · exact List.mem_append_right _ (List.mem_singleton.mpr rfl)

/-- Successful submission marks the processed listing's row contacted. -/
theorem contactStep_success_marks (env : Env) (st : SchedulerState) (l : Listing)
    (message : String)
    (hmsg : composeMessage env l = .ok message)
    (hsub : env.submitResult l message = none)
    (he : ∃ e ∈ st.db.Listings, e.ID = l.ID) :
    ∃ e ∈ (contactStep env st l).db.Listings, e.ID = l.ID ∧ e.Contacted = true := by
  unfold contactStep
  rw [hmsg]
  dsimp only
  rw [hsub]
  obtain ⟨e, hemem, heid⟩ := he
  refine ⟨{ e with Contacted := true }, ?_, heid, rfl⟩
  have hf : (fun l' => if l'.ID == l.ID then { l' with Contacted := true } else l') e
      = { e with Contacted := true } := by
    simp [heid]
  exact hf ▸ List.mem_map_of_mem _ hemem

/-- C7: in mode On, when the Submitter fails for a candidate of the contact
pass, the recorded attempt ends with status failed and the error text, the
candidate's contacted flag stays unset so uncontacted() selects it again
next cycle, the operator receives a contact-failure notification, and the
failure does not abort the remaining candidates: any other candidate whose
submission succeeds is still marked contacted. -/
theorem C7_submit_failure_handling (env : Env) (st : SchedulerState) (l : Listing)
    (message errText : String)
    (hwf : st.db.WF)
    (hmem : l ∈ st.db.GetUncontactedListings)
    (hmsg : composeMessage env l = .ok message)
    (hsub : env.submitResult l message = some errText) :
    (∃ m ∈ (sendContacts env true st).db.Messages,
        m.ListingID = l.ID ∧ m.IS24ID = l.IS24ID ∧ m.Status = "failed"
        ∧ m.ErrorMsg = errText)
    ∧ l ∈ (sendContacts env true st).db.GetUncontactedListings
    ∧ Event.contactFailed l.IS24ID errText ∈ (sendContacts env true st).events
    ∧ (∀ l2 ∈ st.db.GetUncontactedListings, ∀ m2 : String, l2.ID ≠ l.ID →
        composeMessage env l2 = .ok m2 → env.submitResult l2 m2 = none →
        ∃ e ∈ (sendContacts env true st).db.Listings, e.ID = l2.ID ∧ e.Contacted = true) := by
  have hsc : sendContacts env true st =
      (st.db.GetUncontactedListings).foldl (contactStep env) st := rfl
  have hLnodup : ((st.db.GetUncontactedListings).map Listing.ID).Nodup := by
    have hsub2 : List.Sublist st.db.GetUncontactedListings st.db.Listings :=
      List.filter_sublist _
    exact hwf.1.sublist (hsub2.map Listing.ID)
  obtain ⟨pre, post, hL⟩ := List.append_of_mem hmem
  have hLn2 := hLnodup
  rw [hL, List.map_append, List.map_cons] at hLn2
  have hpre : ∀ x ∈ pre, l.ID ≠ x.ID := by
    intro x hx heq
    have hdis := List.disjoint_of_nodup_append hLn2
    exact hdis (List.mem_map_of_mem _ hx) (heq ▸ List.mem_cons_self _ _)
  have hpost : ∀ x ∈ post, l.ID ≠ x.ID := by
    have hcons := List.Nodup.of_append_right hLn2
    have hnotin := (List.nodup_cons.mp hcons).1
    intro x hx heq
    exact hnotin (heq ▸ List.mem_map_of_mem _ hx)
  have hl0 := List.mem_filter.mp hmem
  have hwfPre : ∀ m ∈ (pre.foldl (contactStep env) st).db.Messages,
      m.ID < (pre.foldl (contactStep env) st).db.NextMessageID :=
    foldl_msgWF env pre st hwf.2
  have hlPre : l ∈ (pre.foldl (contactStep env) st).db.Listings :=
    foldl_keeps_entry env l pre st hl0.1 hpre
  have hstep := contactStep_fail env (pre.foldl (contactStep env) st) l message errText
    hmsg hsub
  have hfold : sendContacts env true st =
      post.foldl (contactStep env)
        (contactStep env (pre.foldl (contactStep env) st) l) := by
    rw [hsc, hL, List.foldl_append, List.foldl_cons]
  refine ⟨?_, ?_, ?_, ?_⟩
  · rw [hfold]
    refine ⟨attemptRec (pre.foldl (contactStep env) st).db.NextMessageID l message
      "failed" errText, ?_, rfl, rfl, rfl, rfl⟩
    have hlt : (attemptRec (pre.foldl (contactStep env) st).db.NextMessageID l message
        "failed" errText).ID <
        (contactStep env (pre.foldl (contactStep env) st) l).db.NextMessageID := by
      show (pre.foldl (contactStep env) st).db.NextMessageID <
        (contactStep env (pre.foldl (contactStep env) st) l).db.NextMessageID
      rw [hstep.2.2.2]
      omega
    exact foldl_msg_preserved env _ post _ hstep.2.1 hlt
  · rw [hfold]
    apply List.mem_filter.mpr
    refine ⟨?_, hl0.2⟩
    apply foldl_keeps_entry env l post _ _ hpost
    rw [hstep.1]
    exact hlPre
  · rw [hfold]
    exact foldl_contact_events_mono env _ post _ hstep.2.2.1
  · intro l2 hmem2 m2 hne2 hmsg2 hsub2
    obtain ⟨pre2, post2, hL2⟩ := List.append_of_mem hmem2
    have hLn3 := hLnodup
    rw [hL2, List.map_append, List.map_cons] at hLn3
    have hpre2 : ∀ x ∈ pre2, l2.ID ≠ x.ID := by
      intro x hx heq
      have hdis := List.disjoint_of_nodup_append hLn3
      exact hdis (List.mem_map_of_mem _ hx) (heq ▸ List.mem_cons_self _ _)
    have hl20 := List.mem_filter.mp hmem2
    have hl2Pre : l2 ∈ (pre2.foldl (contactStep env) st).db.Listings :=
      foldl_keeps_entry env l2 pre2 st hl20.1 hpre2
    have hmark := contactStep_success_marks env (pre2.foldl (contactStep env) st) l2 m2
      hmsg2 hsub2 ⟨l2, hl2Pre, rfl⟩
    have hfold2 : sendContacts env true st =
        post2.foldl (contactStep env)
          (contactStep env (pre2.foldl (contactStep env) st) l2) := by
      rw [hsc, hL2, List.foldl_append, List.foldl_cons]
    rw [hfold2]
    obtain ⟨e, hemem, heid, hecont⟩ := hmark
    have hmono := foldl_flagsMono (contactStep env) (contactStep_flagsMono env) post2
      (contactStep env (pre2.foldl (contactStep env) st) l2)
    obtain ⟨e2, he2mem, he2id, _, _, he2c⟩ := hmono e hemem
    exact ⟨e2, he2mem, he2id.trans heid, he2c hecont⟩

/-- Environment of the C7 witness: submission fails with "boom" for
candidate "a" and succeeds for every other candidate. -/
def envC7 : Env :=
  { envW with
    submitResult := fun l _ => if l.IS24ID == "a" then some "boom" else none }

/-- Witness for C7 at a pass over two candidates where the first submission
fails and the second succeeds. -/
theorem C7_submit_failure_handling_witness :
    (∃ m ∈ (sendContacts envC7 true stAB).db.Messages,
        m.ListingID = lsA.ID ∧ m.IS24ID = lsA.IS24ID ∧ m.Status = "failed"
        ∧ m.ErrorMsg = "boom")
    ∧ lsA ∈ (sendContacts envC7 true stAB).db.GetUncontactedListings
    ∧ Event.contactFailed lsA.IS24ID "boom" ∈ (sendContacts envC7 true stAB).events
    ∧ (∀ l2 ∈ stAB.db.GetUncontactedListings, ∀ m2 : String, l2.ID ≠ lsA.ID →
        composeMessage envC7 l2 = .ok m2 → envC7.submitResult l2 m2 = none →
        ∃ e ∈ (sendContacts envC7 true stAB).db.Listings,
          e.ID = l2.ID ∧ e.Contacted = true) :=
  C7_submit_failure_handling envC7 stAB lsA "msg" "boom"
    ⟨by decide, by decide⟩ (by decide) rfl rfl

/-- Witness for C3 at a concrete listing and profile. -/
theorem C3_all_matchers_no_short_circuit_witness :
    (Engine.matchers pW).length = 7
    ∧ (Engine.Filter lW pW).Reasons =
        ((Engine.matchers pW).map (fun m => m lW)).filter (fun r => r != "")
    ∧ (Engine.Filter lW pW).Passed =
        ((Engine.matchers pW).map (fun m => m lW)).all (fun r => r == "") :=
  C3_all_matchers_no_short_circuit lW pW

/-- Witness for C9 with the call run starting at time zero. -/
theorem C9_window_blocks_eleventh_witness :
    (issueCalls rlTen 0 1).2.requestTimes = [0]
    ∧ (issueCalls rlTen 0 10).1 = 0
    ∧ (issueCalls rlTen 0 11).1 = 0 + 60 :=
  C9_window_blocks_eleventh 0
